import Mathlib

/-!
A shallow embedding of `src/rumqttc/src/tls.rs`: the TLS backend selection,
connector construction and handshake driver of the rumqtt client.

External crates (`rustls_pemfile`, `webpki`, `rustls`, `native_tls`, `tokio`)
are modelled as environment records of functions; the module's own control
flow — error mapping, ordering of effects, variant dispatch — is translated
statement by statement from the source.
-/

namespace RumqttTls

/-- Raw byte buffers (`Vec<u8>`) are modelled as lists of naturals. -/
abbrev Bytes := List Nat

/-- The caller-declared private-key variant (`crate::Key`). -/
inductive Key where
  | RSA (k : Bytes)
  | ECC (k : Bytes)
deriving DecidableEq, Repr

/-- The result of `webpki::TrustAnchor::try_from_cert_der`: the extracted
subject, SPKI and optional name constraints. -/
structure TrustAnchor where
  subject : Bytes
  spki : Bytes
  nameConstraints : Option Bytes
deriving DecidableEq, Repr

/-- `rustls::OwnedTrustAnchor`, built by `from_subject_spki_name_constraints`. -/
structure OwnedTrustAnchor where
  subject : Bytes
  spki : Bytes
  nameConstraints : Option Bytes
deriving DecidableEq, Repr

/-- `OwnedTrustAnchor::from_subject_spki_name_constraints` applied to the
fields of a parsed `TrustAnchor` (tls.rs lines 121-125). -/
def OwnedTrustAnchor.fromTrustAnchor (ta : TrustAnchor) : OwnedTrustAnchor :=
  { subject := ta.subject, spki := ta.spki, nameConstraints := ta.nameConstraints }

/-- The observable content of a finished `rustls::ClientConfig`: the installed
root store, the installed client identity (certificate chain and private key),
and the ALPN negotiation list. -/
structure ClientConfig where
  roots : List OwnedTrustAnchor
  clientAuth : Option (List Bytes × Bytes)
  alpn_protocols : List Bytes
deriving DecidableEq, Repr

/-- A `native_tls` connector: the only content this module installs is the
optional PKCS#12 client identity (archive bytes and passphrase). -/
structure NativeTlsConnector where
  identity : Option (Bytes × String)
deriving DecidableEq, Repr

/-- The unified error enum of tls.rs (lines 35-64).  `Io` is spelled `IoErr`
for tooling reasons; it is the `Error::Io(io::Error)` variant. -/
inductive Error where
  | Addr
  | IoErr
  | WebPki
  | DNSName
  | Rustls
  | NoValidCertInChain
  | NativeTls
  | CertNotFound (path : String)
  | InvalidCert (path : String)
  | InvalidPass
deriving DecidableEq, Repr

/-- `TlsConfiguration` (from the crate root): the four configuration
variants consumed by this module. -/
inductive TlsConfiguration where
  | Simple (ca : Bytes) (alpn : Option (List Bytes))
      (client_auth : Option (Bytes × Key))
  | Rustls (tls_client_config : ClientConfig)
  | Native
  | CustomNativeTls (pkcs12_path : String) (pkcs12_pass : String)
deriving DecidableEq, Repr

/-- The outcome of running a fallible Rust function that may also hit a
`panic` or `unreachable` arm: a normal value, a returned `Err`, or process
termination. -/
inductive Outcome (α : Type) where
  | ok (a : α)
  | err (e : Error)
  | panicked (msg : String)
deriving DecidableEq, Repr

/-- `Iterator::map_while`: maps elements until the function first returns
`none`, then stops, discarding the rest of the list (tls.rs line 119). -/
def mapWhile (f : α → Option β) : List α → List β
  | [] => []
  | x :: xs =>
    match f x with
    | some y => y :: mapWhile f xs
    | none => []

/-- Environment of external rustls-side functions used by
`rustls_connector`.  Each field models one external API call; the `Except
Unit` codomain records only success/failure plus the returned data, matching
how tls.rs consumes the results. -/
structure RustlsEnv where
  /-- `rustls_pemfile::certs`: PEM-decode a byte buffer into DER
  certificates, or fail with an `io::Error`. -/
  pemCerts : Bytes → Except Unit (List Bytes)
  /-- `webpki::TrustAnchor::try_from_cert_der`. -/
  tryFromCertDer : Bytes → Option TrustAnchor
  /-- `rustls_pemfile::rsa_private_keys`. -/
  rsaPrivateKeys : Bytes → Except Unit (List Bytes)
  /-- `rustls_pemfile::pkcs8_private_keys`. -/
  pkcs8PrivateKeys : Bytes → Except Unit (List Bytes)
  /-- The ALPN list a fresh `ClientConfig` carries before this module
  touches it (the backend default). -/
  defaultAlpn : List Bytes
  /-- Whether `ClientConfig::with_single_cert` accepts the given chain and
  key (it returns `Result<ClientConfig, rustls::Error>`). -/
  singleCertOk : List Bytes → Bytes → Bool
  /-- `rustls::ServerName::try_from` on a host string. -/
  parseServerName : String → Option String

/-- The per-certificate step of the trust-anchor pipeline (tls.rs lines
119-129): derive a trust anchor from one DER certificate, or fail. -/
def anchorOfCert (env : RustlsEnv) (cert : Bytes) : Option OwnedTrustAnchor :=
  match env.tryFromCertDer cert with
  | some ta => some (OwnedTrustAnchor.fromTrustAnchor ta)
  | none => none

/-- The trust-anchor list produced from a CA buffer: PEM-parsed certificates
fed through `map_while` over `try_from_cert_der` (tls.rs lines 117-129).
`Except.error` is the `io::Error` escape of `rustls_pemfile::certs`. -/
def caTrustAnchors (env : RustlsEnv) (ca : Bytes) :
    Except Unit (List OwnedTrustAnchor) :=
  match env.pemCerts ca with
  | Except.error e => Except.error e
  | Except.ok certs => Except.ok (mapWhile (anchorOfCert env) certs)

/-- The CA stage of `rustls_connector` (tls.rs lines 115-135): build the root
store, and reject the configuration with `NoValidCertInChain` when it ends
up empty.  A pemfile read error propagates through `?` as `Error::Io`. -/
def caStage (env : RustlsEnv) (ca : Bytes) :
    Except Error (List OwnedTrustAnchor) :=
  match caTrustAnchors env ca with
  | Except.error _ => Except.error Error.IoErr
  | Except.ok root_cert_store =>
    if root_cert_store.isEmpty then Except.error Error.NoValidCertInChain
    else Except.ok root_cert_store

/-- The key-reading dispatch of tls.rs lines 147-154: the caller-declared
variant selects which pemfile parser runs on the key bytes. -/
def readKeys (env : RustlsEnv) : Key → Except Unit (List Bytes)
  | Key.RSA k => env.rsaPrivateKeys k
  | Key.ECC k => env.pkcs8PrivateKeys k

/-- `rustls_connector` (tls.rs lines 107-186).  For `Simple`: CA stage, then
optional client identity (certificate chain parse, variant-directed key
parse, first key, `with_single_cert`), then ALPN extension.  For `Rustls`:
wrap the caller's prebuilt configuration unchanged.  Any other variant hits
the `unreachable` arm. -/
def rustls_connector (env : RustlsEnv) (tls_config : TlsConfiguration) :
    Outcome ClientConfig :=
  match tls_config with
  | TlsConfiguration.Simple ca alpn client_auth =>
    match caStage env ca with
    | Except.error e => Outcome.err e
    | Except.ok root_cert_store =>
      let base : ClientConfig :=
        { roots := root_cert_store, clientAuth := none,
          alpn_protocols := env.defaultAlpn }
      let afterAuth : Outcome ClientConfig :=
        match client_auth with
        | some client =>
          match env.pemCerts client.1 with
          | Except.error _ => Outcome.err Error.IoErr
          | Except.ok certs =>
            match readKeys env client.2 with
            | Except.error _ => Outcome.err Error.NoValidCertInChain
            | Except.ok keys =>
              match keys.head? with
              | none => Outcome.err Error.NoValidCertInChain
              | some key =>
                if env.singleCertOk certs key then
                  Outcome.ok { base with clientAuth := some (certs, key) }
                else Outcome.err Error.Rustls
        | none => Outcome.ok base
      match afterAuth with
      | Outcome.ok config =>
        match alpn with
        | some l =>
          Outcome.ok { config with alpn_protocols := config.alpn_protocols ++ l }
        | none => Outcome.ok config
      | other => other
  | TlsConfiguration.Rustls tls_client_config => Outcome.ok tls_client_config
  | _ =>
    Outcome.panicked
      "This function cannot be called for other TLS backends than Rustls"

/-- Environment of external native-tls-side functions used by
`native_tls_connector`. -/
structure NativeEnv where
  /-- `native_tls::TlsConnector::new()`, which can fail with a
  `native_tls::Error`. -/
  newConnector : Except Unit NativeTlsConnector
  /-- `File::open(path)`: does the file open. -/
  openFile : String → Except Unit Unit
  /-- `read_to_end` on the opened file: the bytes, or an `io::Error`. -/
  readToEnd : String → Except Unit Bytes
  /-- `native_tls::Identity::from_pkcs12(buf, pass)`: success means the
  archive decodes under that passphrase. -/
  fromPkcs12 : Bytes → String → Except Unit (Bytes × String)
  /-- `TlsConnector::builder().identity(i).build()`, which can fail with a
  `native_tls::Error`. -/
  buildWithIdentity : (Bytes × String) → Except Unit NativeTlsConnector

/-- `native_tls_connector` (tls.rs lines 73-105).  `Native`: wrap a default
connector.  `CustomNativeTls`: open the archive (`CertNotFound` on failure),
read it fully (`InvalidCert` on failure), decode the PKCS#12 identity
(`InvalidPass` on failure), and build a connector carrying it.  Any other
variant hits the `unreachable` arm. -/
def native_tls_connector (env : NativeEnv) (tls_config : TlsConfiguration) :
    Outcome NativeTlsConnector :=
  match tls_config with
  | TlsConfiguration.Native =>
    match env.newConnector with
    | Except.error _ => Outcome.err Error.NativeTls
    | Except.ok c => Outcome.ok c
  | TlsConfiguration.CustomNativeTls pkcs12_path pkcs12_pass =>
    match env.openFile pkcs12_path with
    | Except.error _ => Outcome.err (Error.CertNotFound pkcs12_path)
    | Except.ok _ =>
      match env.readToEnd pkcs12_path with
      | Except.error _ => Outcome.err (Error.InvalidCert pkcs12_path)
      | Except.ok buf =>
        match env.fromPkcs12 buf pkcs12_pass with
        | Except.error _ => Outcome.err Error.InvalidPass
        | Except.ok identity =>
          match env.buildWithIdentity identity with
          | Except.error _ => Outcome.err Error.NativeTls
          | Except.ok c => Outcome.ok c
  | _ =>
    Outcome.panicked
      "This function cannot be called for other TLS backends than native-tls"

/-- Which match arm of `tls_connect` a configuration belongs to under the
`use-rustls` feature (tls.rs line 198). -/
def isRustlsVariant : TlsConfiguration → Bool
  | TlsConfiguration.Simple _ _ _ => true
  | TlsConfiguration.Rustls _ => true
  | _ => false

/-- Which match arm of `tls_connect` a configuration belongs to under the
`use-native-tls` feature (tls.rs line 204). -/
def isNativeVariant : TlsConfiguration → Bool
  | TlsConfiguration.CustomNativeTls _ _ => true
  | TlsConfiguration.Native => true
  | _ => false

/-- The compile-time feature flags gating the match arms of `tls_connect`. -/
structure BuildFeatures where
  useRustls : Bool
  useNativeTls : Bool
deriving DecidableEq, Repr

/-- `MqttOptions`: the fields `tls_connect` reads. -/
structure MqttOptions where
  broker_addr : String
  port : Nat
deriving DecidableEq, Repr

/-- Observable network effects of one `tls_connect` call: the plain TCP
connect of line 194 and the TLS handshake of lines 201/206. -/
inductive Event where
  | TcpConnect (host : String) (port : Nat)
  | TlsHandshake
deriving DecidableEq, Repr

/-- An established encrypted stream (`Box<dyn N>`), tagged by backend. -/
inductive NStream where
  | rustlsStream (s : Nat)
  | nativeStream (s : Nat)
deriving DecidableEq, Repr

/-- Environment for `tls_connect`: the two builder environments plus the
network primitives. -/
structure ConnectEnv where
  rustlsEnv : RustlsEnv
  nativeEnv : NativeEnv
  /-- `TcpStream::connect((addr, port))`: a socket token or an `io::Error`. -/
  tcpConnect : String → Nat → Except Unit Nat
  /-- `tokio_rustls` `connector.connect(domain, tcp)`: resolves to an
  `io::Result`, so its failure surfaces as `Error::Io`. -/
  rustlsHandshake : ClientConfig → String → Nat → Except Unit Nat
  /-- `tokio_native_tls` `connector.connect(addr, tcp)`: fails with a
  `native_tls::Error`. -/
  nativeHandshake : NativeTlsConnector → String → Nat → Except Unit Nat

/-- `tls_connect` (tls.rs lines 188-212), returning the list of network
events performed alongside the outcome.  The plain TCP connect always runs
first; then the configuration variant selects a backend arm (gated by the
compiled features), the connector is built, the server name is derived
(rustls arm only), and the handshake runs.  A variant matching no compiled
arm reaches the `panic` arm of line 209. -/
def tls_connect (feat : BuildFeatures) (env : ConnectEnv)
    (options : MqttOptions) (tls_config : TlsConfiguration) :
    List Event × Outcome NStream :=
  let addr := options.broker_addr
  let port := options.port
  match env.tcpConnect addr port with
  | Except.error _ => ([Event.TcpConnect addr port], Outcome.err Error.IoErr)
  | Except.ok tcp =>
    if feat.useRustls && isRustlsVariant tls_config then
      match rustls_connector env.rustlsEnv tls_config with
      | Outcome.err e => ([Event.TcpConnect addr port], Outcome.err e)
      | Outcome.panicked m => ([Event.TcpConnect addr port], Outcome.panicked m)
      | Outcome.ok connector =>
        match env.rustlsEnv.parseServerName addr with
        | none => ([Event.TcpConnect addr port], Outcome.err Error.DNSName)
        | some domain =>
          match env.rustlsHandshake connector domain tcp with
          | Except.error _ =>
            ([Event.TcpConnect addr port, Event.TlsHandshake],
             Outcome.err Error.IoErr)
          | Except.ok s =>
            ([Event.TcpConnect addr port, Event.TlsHandshake],
             Outcome.ok (NStream.rustlsStream s))
    else if feat.useNativeTls && isNativeVariant tls_config then
      match native_tls_connector env.nativeEnv tls_config with
      | Outcome.err e => ([Event.TcpConnect addr port], Outcome.err e)
      | Outcome.panicked m => ([Event.TcpConnect addr port], Outcome.panicked m)
      | Outcome.ok connector =>
        match env.nativeHandshake connector addr tcp with
        | Except.error _ =>
          ([Event.TcpConnect addr port, Event.TlsHandshake],
           Outcome.err Error.NativeTls)
        | Except.ok s =>
          ([Event.TcpConnect addr port, Event.TlsHandshake],
           Outcome.ok (NStream.nativeStream s))
    else
      ([Event.TcpConnect addr port],
       Outcome.panicked "Unknown or not enabled TLS backend configuration")

/-! ## Concrete environments used by witnesses and counterexamples -/

/-- A concrete rustls-side environment: each byte of a buffer is one PEM
block; even DER bytes yield trust anchors, odd ones fail structural
validation; the buffer `[99]` makes the PEM reader fail with an `io::Error`;
key parsing mirrors this, with the empty buffer parsing to zero keys (as the
RSA-tagged parser does on a PKCS#8-encoded key); `with_single_cert` rejects
an empty certificate chain; the host string is a valid server name unless it
contains a character no DNS name may carry. -/
def rEnvBase : RustlsEnv :=
  { pemCerts := fun b =>
      if b = [99] then Except.error () else Except.ok (b.map (fun x => [x]))
  , tryFromCertDer := fun c =>
      match c with
      | [x] =>
        if x % 2 = 0 then some { subject := c, spki := c, nameConstraints := none }
        else none
      | _ => none
  , rsaPrivateKeys := fun k =>
      if k = [99] then Except.error () else Except.ok (k.map (fun x => [x]))
  , pkcs8PrivateKeys := fun k =>
      if k = [99] then Except.error () else Except.ok (k.map (fun x => [x]))
  , defaultAlpn := []
  , singleCertOk := fun certs _ => !certs.isEmpty
  , parseServerName := fun s => if s = "bad#host" then none else some s }

/-- `rEnvBase` with a non-empty backend-default ALPN list, to make the
append-not-replace behaviour observable. -/
def rEnvAlpn : RustlsEnv := { rEnvBase with defaultAlpn := [[7]] }

/-- A concrete native-tls-side environment: the path `"missing"` fails to
open, `"unreadable"` opens but fails to read, every other path reads to
`[1, 2, 3]`; the PKCS#12 decode succeeds exactly under the passphrase
`"right"`. -/
def nEnvBase : NativeEnv :=
  { newConnector := Except.ok { identity := none }
  , openFile := fun p => if p = "missing" then Except.error () else Except.ok ()
  , readToEnd := fun p =>
      if p = "unreadable" then Except.error () else Except.ok [1, 2, 3]
  , fromPkcs12 := fun buf pass =>
      if pass = "right" then Except.ok (buf, pass) else Except.error ()
  , buildWithIdentity := fun i => Except.ok { identity := some i } }

/-- `nEnvBase` whose PKCS#12 decode always fails: an existing, readable file
whose bytes are not a decodable PKCS#12 archive under any passphrase. -/
def nEnvGarbage : NativeEnv :=
  { nEnvBase with fromPkcs12 := fun _ _ => Except.error () }

/-- A concrete connect environment over the two base environments, whose
network primitives all succeed. -/
def cEnvBase : ConnectEnv :=
  { rustlsEnv := rEnvBase
  , nativeEnv := nEnvBase
  , tcpConnect := fun _ _ => Except.ok 0
  , rustlsHandshake := fun _ _ _ => Except.ok 1
  , nativeHandshake := fun _ _ _ => Except.ok 1 }

/-- The build with only the `use-rustls` feature. -/
def rustlsBuild : BuildFeatures := { useRustls := true, useNativeTls := false }

/-- The build with only the `use-native-tls` feature. -/
def nativeBuild : BuildFeatures := { useRustls := false, useNativeTls := true }

/-! ## General lemmas -/

/-- `map_while` over a list on which the function never succeeds produces
the empty list. -/
theorem mapWhile_eq_nil_of_all_none {α β : Type} {f : α → Option β} :
    ∀ {l : List α}, (∀ a ∈ l, f a = none) → mapWhile f l = []
  | [], _ => rfl
  | a :: l, h => by
    have ha := h a (List.mem_cons_self a l)
    simp [mapWhile, ha]

/-! ## Claim C1 -/

/-- C1 counterexample.  The claim states that a rustls-path configuration
whose CA bundle holds zero valid certificates is rejected with
`NoValidCertInChain` before any network connect is attempted.  At the
concrete input below (empty CA bundle), `tls_connect` does return
`NoValidCertInChain`, but the plain TCP connect to the broker has already
been performed: the connect event is in the trace, refuting the
no-network-I/O part of the claim. -/
theorem C1_counterexample :
    (tls_connect rustlsBuild cEnvBase
        { broker_addr := "broker.example.com", port := 8883 }
        (TlsConfiguration.Simple [] none none)).2
      = Outcome.err Error.NoValidCertInChain ∧
    Event.TcpConnect "broker.example.com" 8883 ∈
      (tls_connect rustlsBuild cEnvBase
        { broker_addr := "broker.example.com", port := 8883 }
        (TlsConfiguration.Simple [] none none)).1 := by
  decide

/-- C1 (amended): on the rustls path, when the TCP connect succeeds and the
CA bundle yields zero valid certificates (the PEM reader returns a list of
certificates from none of which a trust anchor can be derived — covering the
empty bundle, garbage bytes, and bundles of only malformed entries),
`tls_connect` fails with `NoValidCertInChain` and performs no TLS handshake;
the only network I/O is the plain TCP connect, which happens before the
configuration is rejected. -/
theorem C1_amended_holds (feat : BuildFeatures) (env : ConnectEnv)
    (opts : MqttOptions) (ca : Bytes) (alpn : Option (List Bytes))
    (auth : Option (Bytes × Key)) (certs : List Bytes) (t : Nat)
    (hfeat : feat.useRustls = true)
    (htcp : env.tcpConnect opts.broker_addr opts.port = Except.ok t)
    (hpem : env.rustlsEnv.pemCerts ca = Except.ok certs)
    (hnone : ∀ c ∈ certs, env.rustlsEnv.tryFromCertDer c = none) :
    tls_connect feat env opts (TlsConfiguration.Simple ca alpn auth) =
      ([Event.TcpConnect opts.broker_addr opts.port],
       Outcome.err Error.NoValidCertInChain) := by
  have hanch : mapWhile (anchorOfCert env.rustlsEnv) certs = [] :=
    mapWhile_eq_nil_of_all_none (fun c hc => by simp [anchorOfCert, hnone c hc])
  have hca : caStage env.rustlsEnv ca = Except.error Error.NoValidCertInChain := by
    simp [caStage, caTrustAnchors, hpem, hanch]
  have hconn : rustls_connector env.rustlsEnv
      (TlsConfiguration.Simple ca alpn auth)
      = Outcome.err Error.NoValidCertInChain := by
    simp [rustls_connector, hca]
  simp [tls_connect, htcp, hfeat, isRustlsVariant, hconn]

/-- C1 witness: the amended theorem instantiated at the concrete connect
environment, an empty CA bundle, and the example broker address. -/
theorem C1_witness :
    tls_connect rustlsBuild cEnvBase
        { broker_addr := "broker.example.com", port := 8883 }
        (TlsConfiguration.Simple [] none none) =
      ([Event.TcpConnect "broker.example.com" 8883],
       Outcome.err Error.NoValidCertInChain) :=
  C1_amended_holds rustlsBuild cEnvBase
    { broker_addr := "broker.example.com", port := 8883 }
    [] none none [] 0 rfl rfl rfl (by simp)

/-! ## Claim C2 -/

/-- C2: the claim states that certificates from which no trust anchor can be
derived are silently skipped without aborting the rest of the bundle, so any
bundle holding at least one structurally valid certificate (at any position)
yields a non-empty store.  The code instead pipes the parsed certificates
through `map_while`, which stops at the first failing certificate.  At the
concrete bundle `[1, 0]` — certificate `[1]` malformed, certificate `[0]`
valid — the parsed list holds a valid certificate, yet the store comes out
empty and construction fails with `NoValidCertInChain`. -/
theorem C2_code_eval :
    rEnvBase.pemCerts [1, 0] = Except.ok [[1], [0]] ∧
    (rEnvBase.tryFromCertDer [0]).isSome = true ∧
    rustls_connector rEnvBase (TlsConfiguration.Simple [1, 0] none none)
      = Outcome.err Error.NoValidCertInChain :=
  ⟨rfl, rfl, rfl⟩

/-! ## Claim C3 -/

/-- C3 counterexample.  The claim maps "an existing file whose bytes are not
decodable as a PKCS#12 identity" to `InvalidCert(path)`.  In the code every
`Identity::from_pkcs12` failure is mapped to `InvalidPass`, so at a concrete
environment where the file opens and reads fine but its bytes are not a
decodable archive, the builder returns `InvalidPass`, not
`InvalidCert(path)`. -/
theorem C3_counterexample :
    native_tls_connector nEnvGarbage
        (TlsConfiguration.CustomNativeTls "archive.p12" "pass")
      = Outcome.err Error.InvalidPass ∧
    native_tls_connector nEnvGarbage
        (TlsConfiguration.CustomNativeTls "archive.p12" "pass")
      ≠ Outcome.err (Error.InvalidCert "archive.p12") := by
  refine ⟨rfl, by decide⟩

/-- C3 (amended): on the PKCS#12 path, a file that fails to open yields
`CertNotFound(path)`; a file that opens but whose bytes cannot be read
yields `InvalidCert(path)`; a `from_pkcs12` decode failure — whether the
bytes are not an archive or the passphrase is wrong — yields `InvalidPass`;
and when open, read, decode and the final builder step all succeed, a
connector carrying the decoded identity is returned. -/
theorem C3_amended_holds (env : NativeEnv) (path pass : String) :
    (env.openFile path = Except.error () →
      native_tls_connector env (TlsConfiguration.CustomNativeTls path pass)
        = Outcome.err (Error.CertNotFound path)) ∧
    (env.openFile path = Except.ok () → env.readToEnd path = Except.error () →
      native_tls_connector env (TlsConfiguration.CustomNativeTls path pass)
        = Outcome.err (Error.InvalidCert path)) ∧
    (∀ buf, env.openFile path = Except.ok () →
      env.readToEnd path = Except.ok buf →
      env.fromPkcs12 buf pass = Except.error () →
      native_tls_connector env (TlsConfiguration.CustomNativeTls path pass)
        = Outcome.err Error.InvalidPass) ∧
    (∀ buf ident c, env.openFile path = Except.ok () →
      env.readToEnd path = Except.ok buf →
      env.fromPkcs12 buf pass = Except.ok ident →
      env.buildWithIdentity ident = Except.ok c →
      native_tls_connector env (TlsConfiguration.CustomNativeTls path pass)
        = Outcome.ok c) := by
  refine ⟨fun hopen => ?_, fun hopen hread => ?_,
    fun buf hopen hread hdec => ?_, fun buf ident c hopen hread hdec hbuild => ?_⟩
  · simp [native_tls_connector, hopen]
  · simp [native_tls_connector, hopen, hread]
  · simp [native_tls_connector, hopen, hread, hdec]
  · simp [native_tls_connector, hopen, hread, hdec, hbuild]

/-- C3 witness: the amended theorem instantiated at the concrete native
environment, exercising all four branches. -/
theorem C3_witness :
    native_tls_connector nEnvBase
        (TlsConfiguration.CustomNativeTls "missing" "right")
      = Outcome.err (Error.CertNotFound "missing") ∧
    native_tls_connector nEnvBase
        (TlsConfiguration.CustomNativeTls "unreadable" "right")
      = Outcome.err (Error.InvalidCert "unreadable") ∧
    native_tls_connector nEnvBase
        (TlsConfiguration.CustomNativeTls "good.p12" "wrong")
      = Outcome.err Error.InvalidPass ∧
    native_tls_connector nEnvBase
        (TlsConfiguration.CustomNativeTls "good.p12" "right")
      = Outcome.ok { identity := some ([1, 2, 3], "right") } :=
  ⟨(C3_amended_holds nEnvBase "missing" "right").1 rfl,
   (C3_amended_holds nEnvBase "unreadable" "right").2.1 rfl rfl,
   (C3_amended_holds nEnvBase "good.p12" "wrong").2.2.1 [1, 2, 3] rfl rfl rfl,
   (C3_amended_holds nEnvBase "good.p12" "right").2.2.2 [1, 2, 3]
     ([1, 2, 3], "right") { identity := some ([1, 2, 3], "right") }
     rfl rfl rfl rfl⟩

/-! ## Claim C4 -/

/-- C4 counterexample.  The claim states that `NoValidCertInChain` is the
only error CA-bundle parsing and trust-store construction can produce.  The
code propagates a `rustls_pemfile::certs` reader failure through `?` as
`Error::Io`: at a concrete environment where the PEM reader fails on the CA
buffer `[99]`, the builder returns `Io`, not `NoValidCertInChain`. -/
theorem C4_counterexample :
    rustls_connector rEnvBase (TlsConfiguration.Simple [99] none none)
      = Outcome.err Error.IoErr ∧
    rustls_connector rEnvBase (TlsConfiguration.Simple [99] none none)
      ≠ Outcome.err Error.NoValidCertInChain := by
  refine ⟨rfl, by decide⟩

/-- C4 (amended): the CA stage produces only two errors — a PEM reader
failure propagated as `Io`, and otherwise `NoValidCertInChain`, raised
exactly when the derived trust-anchor set is empty; and any CA-stage error
is returned by `rustls_connector` unchanged, for every client-identity and
ALPN setting, i.e. before any further configuration is examined. -/
theorem C4_amended_holds (env : RustlsEnv) (ca : Bytes) :
    (∀ e, caStage env ca = Except.error e →
      e = Error.IoErr ∨ e = Error.NoValidCertInChain) ∧
    (∀ certs, env.pemCerts ca = Except.ok certs →
      (caStage env ca = Except.error Error.NoValidCertInChain ↔
        mapWhile (anchorOfCert env) certs = [])) ∧
    (∀ e, caStage env ca = Except.error e →
      ∀ alpn auth, rustls_connector env (TlsConfiguration.Simple ca alpn auth)
        = Outcome.err e) := by
  refine ⟨fun e he => ?_, fun certs hcerts => ?_, fun e he alpn auth => ?_⟩
  · unfold caStage at he
    split at he
    · exact Or.inl (Except.error.inj he).symm
    · split at he
      · exact Or.inr (Except.error.inj he).symm
      · exact absurd he (by simp)
  · unfold caStage caTrustAnchors
    rw [hcerts]
    by_cases hm : mapWhile (anchorOfCert env) certs = []
    · rw [hm]; simpa using hm
    · simp [hm]
  · simp [rustls_connector, he]

/-- C4 witness: the amended theorem instantiated at the concrete rustls
environment, on the reader-failure bundle `[99]` and on the empty bundle. -/
theorem C4_witness :
    (Error.IoErr = Error.IoErr ∨ Error.IoErr = Error.NoValidCertInChain) ∧
    (caStage rEnvBase [] = Except.error Error.NoValidCertInChain ↔
      mapWhile (anchorOfCert rEnvBase) [] = []) ∧
    rustls_connector rEnvBase
        (TlsConfiguration.Simple [99] (some [[5]]) none)
      = Outcome.err Error.IoErr :=
  ⟨(C4_amended_holds rEnvBase [99]).1 Error.IoErr rfl,
   (C4_amended_holds rEnvBase []).2.1 [] rfl,
   (C4_amended_holds rEnvBase [99]).2.2 Error.IoErr rfl (some [[5]]) none⟩

/-! ## Claim C5 -/

/-- C5 counterexample.  The claim states that any client-identity parse
failure is normalized to `NoValidCertInChain`.  The certificate-chain parse
(`rustls_pemfile::certs` at tls.rs line 144) propagates its failure through
`?` as `Error::Io`: at a concrete environment with a valid CA bundle and a
client certificate buffer the PEM reader rejects, the builder returns `Io`,
not `NoValidCertInChain`. -/
theorem C5_counterexample :
    rustls_connector rEnvBase
        (TlsConfiguration.Simple [0] none (some ([99], Key.RSA [2])))
      = Outcome.err Error.IoErr ∧
    rustls_connector rEnvBase
        (TlsConfiguration.Simple [0] none (some ([99], Key.RSA [2])))
      ≠ Outcome.err Error.NoValidCertInChain := by
  refine ⟨rfl, by decide⟩

/-- C5 (amended): on the rustls path with a CA stage that succeeded, a
client-identity key-parse failure or an empty parsed key set (including a
declared key variant that does not match the actual encoding, which parses
to zero keys) fails with `NoValidCertInChain`; a certificate-chain PEM
reader failure is surfaced as `Io`; and the parsed certificate set is handed
to the TLS library without an emptiness check, whose rejection surfaces as
`Rustls`. -/
theorem C5_amended_holds (env : RustlsEnv) (ca : Bytes)
    (alpn : Option (List Bytes)) (roots : List OwnedTrustAnchor)
    (hca : caStage env ca = Except.ok roots) :
    (∀ certBytes key certs, env.pemCerts certBytes = Except.ok certs →
      readKeys env key = Except.error () →
      rustls_connector env
          (TlsConfiguration.Simple ca alpn (some (certBytes, key)))
        = Outcome.err Error.NoValidCertInChain) ∧
    (∀ certBytes key certs, env.pemCerts certBytes = Except.ok certs →
      readKeys env key = Except.ok [] →
      rustls_connector env
          (TlsConfiguration.Simple ca alpn (some (certBytes, key)))
        = Outcome.err Error.NoValidCertInChain) ∧
    (∀ certBytes key, env.pemCerts certBytes = Except.error () →
      rustls_connector env
          (TlsConfiguration.Simple ca alpn (some (certBytes, key)))
        = Outcome.err Error.IoErr) ∧
    (∀ certBytes key certs k ks, env.pemCerts certBytes = Except.ok certs →
      readKeys env key = Except.ok (k :: ks) →
      env.singleCertOk certs k = false →
      rustls_connector env
          (TlsConfiguration.Simple ca alpn (some (certBytes, key)))
        = Outcome.err Error.Rustls) := by
  refine ⟨fun certBytes key certs hpem hkeys => ?_,
    fun certBytes key certs hpem hkeys => ?_,
    fun certBytes key hpem => ?_,
    fun certBytes key certs k ks hpem hkeys hsingle => ?_⟩
  · simp [rustls_connector, hca, hpem, hkeys]
  · simp [rustls_connector, hca, hpem, hkeys]
  · simp [rustls_connector, hca, hpem]
  · simp [rustls_connector, hca, hpem, hkeys, hsingle]

/-- C5 witness: the amended theorem instantiated at the concrete rustls
environment with CA bundle `[0]`, exercising all four branches: a key the
RSA parser rejects, a key buffer parsing to zero keys, a certificate buffer
the PEM reader rejects, and an empty certificate chain the TLS library
rejects. -/
theorem C5_witness :
    rustls_connector rEnvBase
        (TlsConfiguration.Simple [0] none (some ([2], Key.RSA [99])))
      = Outcome.err Error.NoValidCertInChain ∧
    rustls_connector rEnvBase
        (TlsConfiguration.Simple [0] none (some ([2], Key.RSA [])))
      = Outcome.err Error.NoValidCertInChain ∧
    rustls_connector rEnvBase
        (TlsConfiguration.Simple [0] none (some ([99], Key.ECC [2])))
      = Outcome.err Error.IoErr ∧
    rustls_connector rEnvBase
        (TlsConfiguration.Simple [0] none (some ([], Key.RSA [2])))
      = Outcome.err Error.Rustls :=
  ⟨(C5_amended_holds rEnvBase [0] none _ rfl).1 [2] (Key.RSA [99]) [[2]] rfl rfl,
   (C5_amended_holds rEnvBase [0] none _ rfl).2.1 [2] (Key.RSA []) [[2]] rfl rfl,
   (C5_amended_holds rEnvBase [0] none _ rfl).2.2.1 [99] (Key.ECC [2]) rfl,
   (C5_amended_holds rEnvBase [0] none _ rfl).2.2.2 [] (Key.RSA [2]) [] [2] []
     rfl rfl rfl⟩

/-! ## Claim C6 -/

/-- C6: on the rustls path, when the TCP connect succeeds and the connector
builds, a host string from which no TLS server name can be derived makes
`tls_connect` fail with the `DNSName` kind (the spec's `ServerNameInvalid`);
the trace shows the plain TCP connect was already performed and no TLS
handshake was attempted. -/
theorem C6_holds (feat : BuildFeatures) (env : ConnectEnv)
    (opts : MqttOptions) (cfg : TlsConfiguration) (t : Nat) (c : ClientConfig)
    (hfeat : feat.useRustls = true)
    (hvar : isRustlsVariant cfg = true)
    (htcp : env.tcpConnect opts.broker_addr opts.port = Except.ok t)
    (hconn : rustls_connector env.rustlsEnv cfg = Outcome.ok c)
    (hname : env.rustlsEnv.parseServerName opts.broker_addr = none) :
    tls_connect feat env opts cfg =
      ([Event.TcpConnect opts.broker_addr opts.port],
       Outcome.err Error.DNSName) := by
  simp [tls_connect, htcp, hfeat, hvar, hconn, hname]

/-- C6 witness: a prebuilt-configuration connector and the invalid host
string of the concrete environment. -/
theorem C6_witness :
    tls_connect rustlsBuild cEnvBase
        { broker_addr := "bad#host", port := 8883 }
        (TlsConfiguration.Rustls { roots := [], clientAuth := none,
                                   alpn_protocols := [] }) =
      ([Event.TcpConnect "bad#host" 8883], Outcome.err Error.DNSName) :=
  C6_holds rustlsBuild cEnvBase
    { broker_addr := "bad#host", port := 8883 }
    (TlsConfiguration.Rustls { roots := [], clientAuth := none,
                               alpn_protocols := [] })
    0 { roots := [], clientAuth := none, alpn_protocols := [] }
    rfl rfl rfl rfl rfl

/-! ## Claim C7 -/

/-- C7: a configuration variant that does not belong to the compiled backend
is a fatal precondition violation.  `rustls_connector` on a non-rustls
variant and `native_tls_connector` on a non-native variant hit their
`unreachable` arms, and `tls_connect` (once the TCP connect has handed
control to the dispatch) hits its `panic` arm on a variant no compiled
feature claims — a terminating outcome, distinct by constructor from every
recoverable `Outcome.err` kind. -/
theorem C7_holds (env : ConnectEnv) (opts : MqttOptions)
    (cfgR cfgN : TlsConfiguration) (t : Nat)
    (hR : isRustlsVariant cfgR = false)
    (hN : isNativeVariant cfgN = false)
    (htcp : env.tcpConnect opts.broker_addr opts.port = Except.ok t) :
    rustls_connector env.rustlsEnv cfgR = Outcome.panicked
        "This function cannot be called for other TLS backends than Rustls" ∧
    native_tls_connector env.nativeEnv cfgN = Outcome.panicked
        "This function cannot be called for other TLS backends than native-tls" ∧
    tls_connect rustlsBuild env opts cfgR =
      ([Event.TcpConnect opts.broker_addr opts.port],
       Outcome.panicked "Unknown or not enabled TLS backend configuration") ∧
    tls_connect nativeBuild env opts cfgN =
      ([Event.TcpConnect opts.broker_addr opts.port],
       Outcome.panicked "Unknown or not enabled TLS backend configuration") := by
  refine ⟨?_, ?_, ?_, ?_⟩
  · cases cfgR with
    | Simple ca alpn auth => simp [isRustlsVariant] at hR
    | Rustls cfg => simp [isRustlsVariant] at hR
    | Native => rfl
    | CustomNativeTls p q => rfl
  · cases cfgN with
    | Native => simp [isNativeVariant] at hN
    | CustomNativeTls p q => simp [isNativeVariant] at hN
    | Simple ca alpn auth => rfl
    | Rustls cfg => rfl
  · simp [tls_connect, htcp, hR, rustlsBuild]
  · simp [tls_connect, htcp, hN, nativeBuild]

/-- C7 witness: a native-backend variant handed to the rustls build and a
rustls-backend variant handed to the native build. -/
theorem C7_witness :
    rustls_connector cEnvBase.rustlsEnv TlsConfiguration.Native
      = Outcome.panicked
        "This function cannot be called for other TLS backends than Rustls" ∧
    native_tls_connector cEnvBase.nativeEnv
        (TlsConfiguration.Simple [] none none)
      = Outcome.panicked
        "This function cannot be called for other TLS backends than native-tls" ∧
    tls_connect rustlsBuild cEnvBase { broker_addr := "h", port := 1 }
        TlsConfiguration.Native =
      ([Event.TcpConnect "h" 1],
       Outcome.panicked "Unknown or not enabled TLS backend configuration") ∧
    tls_connect nativeBuild cEnvBase { broker_addr := "h", port := 1 }
        (TlsConfiguration.Simple [] none none) =
      ([Event.TcpConnect "h" 1],
       Outcome.panicked "Unknown or not enabled TLS backend configuration") :=
  C7_holds cEnvBase { broker_addr := "h", port := 1 }
    TlsConfiguration.Native (TlsConfiguration.Simple [] none none) 0
    rfl rfl rfl

/-! ## Claim C8 -/

/-- C8: whenever `rustls_connector` succeeds on a `Simple` configuration,
the connector's ALPN negotiation list is the backend default with the
supplied list appended in its original order — and exactly the unmodified
backend default when no list was supplied. -/
theorem C8_holds (env : RustlsEnv) (ca : Bytes) (alpn : Option (List Bytes))
    (auth : Option (Bytes × Key)) (c : ClientConfig)
    (h : rustls_connector env (TlsConfiguration.Simple ca alpn auth)
      = Outcome.ok c) :
    c.alpn_protocols = env.defaultAlpn ++ alpn.getD [] := by
  cases hca : caStage env ca with
  | error e =>
    rw [show rustls_connector env (TlsConfiguration.Simple ca alpn auth)
        = Outcome.err e from by simp [rustls_connector, hca]] at h
    exact absurd h (by simp)
  | ok roots =>
    cases auth with
    | none =>
      have hc : rustls_connector env (TlsConfiguration.Simple ca alpn none)
          = Outcome.ok { roots := roots, clientAuth := none,
                         alpn_protocols := env.defaultAlpn ++ alpn.getD [] } := by
        cases alpn with
        | none => simp [rustls_connector, hca]
        | some l => simp [rustls_connector, hca]
      rw [hc] at h
      injection h with h'
      subst h'
      rfl
    | some client =>
      obtain ⟨certBytes, key⟩ := client
      cases hpem : env.pemCerts certBytes with
      | error u =>
        rw [show rustls_connector env
              (TlsConfiguration.Simple ca alpn (some (certBytes, key)))
            = Outcome.err Error.IoErr from by
          simp [rustls_connector, hca, hpem]] at h
        exact absurd h (by simp)
      | ok certs =>
        cases hkeys : readKeys env key with
        | error u =>
          rw [show rustls_connector env
                (TlsConfiguration.Simple ca alpn (some (certBytes, key)))
              = Outcome.err Error.NoValidCertInChain from by
            simp [rustls_connector, hca, hpem, hkeys]] at h
          exact absurd h (by simp)
        | ok keys =>
          cases keys with
          | nil =>
            rw [show rustls_connector env
                  (TlsConfiguration.Simple ca alpn (some (certBytes, key)))
                = Outcome.err Error.NoValidCertInChain from by
              simp [rustls_connector, hca, hpem, hkeys]] at h
            exact absurd h (by simp)
          | cons k ks =>
            cases hok : env.singleCertOk certs k with
            | true =>
              have hc : rustls_connector env
                  (TlsConfiguration.Simple ca alpn (some (certBytes, key)))
                  = Outcome.ok { roots := roots,
                                 clientAuth := some (certs, k),
                                 alpn_protocols :=
                                   env.defaultAlpn ++ alpn.getD [] } := by
                cases alpn with
                | none => simp [rustls_connector, hca, hpem, hkeys, hok]
                | some l => simp [rustls_connector, hca, hpem, hkeys, hok]
              rw [hc] at h
              injection h with h'
              subst h'
              rfl
            | false =>
              rw [show rustls_connector env
                    (TlsConfiguration.Simple ca alpn (some (certBytes, key)))
                  = Outcome.err Error.Rustls from by
                simp [rustls_connector, hca, hpem, hkeys, hok]] at h
              exact absurd h (by simp)

/-- C8 witness: a backend default of `[[7]]` and a supplied list
`[[1], [2]]` produce the negotiation list `[[7], [1], [2]]`. -/
theorem C8_witness :
    ({ roots := [{ subject := [0], spki := [0], nameConstraints := none }],
       clientAuth := none,
       alpn_protocols := [[7], [1], [2]] } : ClientConfig).alpn_protocols
      = rEnvAlpn.defaultAlpn ++ (some [[1], [2]]).getD [] :=
  C8_holds rEnvAlpn [0] (some [[1], [2]]) none
    { roots := [{ subject := [0], spki := [0], nameConstraints := none }],
      clientAuth := none, alpn_protocols := [[7], [1], [2]] }
    rfl

/-! ## Claim C9 -/

/-- C9: when a client identity is supplied on the rustls path and its key
buffer parses to one or more private keys, the connector installs exactly
the first parsed key of the list — whatever the tail — alongside the parsed
certificate chain, with acceptance of the pair delegated to the TLS
library's `with_single_cert`. -/
theorem C9_holds (env : RustlsEnv) (ca certBytes : Bytes)
    (alpn : Option (List Bytes)) (key : Key) (roots : List OwnedTrustAnchor)
    (certs : List Bytes) (k : Bytes) (ks : List Bytes)
    (hca : caStage env ca = Except.ok roots)
    (hcerts : env.pemCerts certBytes = Except.ok certs)
    (hkeys : readKeys env key = Except.ok (k :: ks))
    (hok : env.singleCertOk certs k = true) :
    ∃ c, rustls_connector env
        (TlsConfiguration.Simple ca alpn (some (certBytes, key)))
      = Outcome.ok c ∧ c.clientAuth = some (certs, k) := by
  refine ⟨{ roots := roots, clientAuth := some (certs, k),
            alpn_protocols := env.defaultAlpn ++ alpn.getD [] }, ?_, rfl⟩
  cases alpn with
  | none => simp [rustls_connector, hca, hcerts, hkeys, hok]
  | some l => simp [rustls_connector, hca, hcerts, hkeys, hok]

/-- C9 witness: a key buffer parsing to three keys `[[4], [6], [8]]`
installs the first, `[4]`. -/
theorem C9_witness :
    ∃ c, rustls_connector rEnvBase
        (TlsConfiguration.Simple [0] none (some ([2], Key.RSA [4, 6, 8])))
      = Outcome.ok c ∧ c.clientAuth = some ([[2]], [4]) :=
  C9_holds rEnvBase [0] [2] none (Key.RSA [4, 6, 8]) _ [[2]] [4] [[6], [8]]
    rfl rfl rfl rfl

/-! ## Claim C10 -/

/-- C10: on the PKCS#12 path, when the archive file opens but reading its
bytes fails, the builder returns `InvalidCert(path)` — and in particular
not the `Io` kind, even though the underlying failure is an I/O error. -/
theorem C10_holds (env : NativeEnv) (path pass : String)
    (hopen : env.openFile path = Except.ok ())
    (hread : env.readToEnd path = Except.error ()) :
    native_tls_connector env (TlsConfiguration.CustomNativeTls path pass)
      = Outcome.err (Error.InvalidCert path) ∧
    native_tls_connector env (TlsConfiguration.CustomNativeTls path pass)
      ≠ Outcome.err Error.IoErr := by
  have h : native_tls_connector env (TlsConfiguration.CustomNativeTls path pass)
      = Outcome.err (Error.InvalidCert path) := by
    simp [native_tls_connector, hopen, hread]
  exact ⟨h, by rw [h]; simp⟩

/-- C10 witness: the concrete path that opens but does not read. -/
theorem C10_witness :
    native_tls_connector nEnvBase
        (TlsConfiguration.CustomNativeTls "unreadable" "right")
      = Outcome.err (Error.InvalidCert "unreadable") ∧
    native_tls_connector nEnvBase
        (TlsConfiguration.CustomNativeTls "unreadable" "right")
      ≠ Outcome.err Error.IoErr :=
  C10_holds nEnvBase "unreadable" "right" rfl rfl

end RumqttTls
